import Mathlib

/-!
Verification of the `whocares` caretaker-rotation scheduler.

Dates are embedded as natural numbers counting days since 0000-03-01 of the
proleptic Gregorian calendar, with conversions `daysFromCivil` /
`yearOf` following the standard era-based algorithms (the same ones
chrono's `NaiveDate` implements).  `getCurrentCaretakerIdxOpt` and
`getNextWeeks` embed `get_current_caretaker_idx` and `get_next_weeks`
from `src/main.rs`; the date that Rust obtains from
`chrono::Local::now().date_naive()` is passed as the explicit argument
`now`, and the two Rust operations that can panic — the `usize`
subtraction `count() - 1` and the remainder `diff % len` — are modeled by
`checkedSub` and `checkedMod` returning `Option`.
-/

namespace WhoCares

/-- Day count since 0000-03-01 of a civil date (proleptic Gregorian),
valid for years ≥ 1; era-based algorithm as used by chrono. -/
def daysFromCivil (y m d : Nat) : Nat :=
  let yAdj := if m ≤ 2 then y - 1 else y
  let era := yAdj / 400
  let yoe := yAdj % 400
  let mp := if m ≤ 2 then m + 9 else m - 3
  let doy := (153 * mp + 2) / 5 + d - 1
  let doe := yoe * 365 + yoe / 4 - yoe / 100 + doy
  era * 146097 + doe

/-- Calendar year of a day count (inverse direction of `daysFromCivil`). -/
def yearOf (z : Nat) : Nat :=
  let era := z / 146097
  let doe := z % 146097
  let yoe := (doe - doe / 1460 + doe / 36524 - doe / 146096) / 365
  let y := yoe + era * 400
  let doy := doe - (365 * yoe + yoe / 4 - yoe / 100)
  let mp := (5 * doy + 2) / 153
  let m := if mp < 10 then mp + 3 else mp - 9
  if m ≤ 2 then y + 1 else y

/-- Weekday with Monday = 0 … Sunday = 6. -/
def weekdayMon (z : Nat) : Nat := (z + 2) % 7

/-- The Monday beginning the ISO week containing `z`; embeds
`z.week(Weekday::Mon).first_day()`. -/
def mondayOfWeek (z : Nat) : Nat := z - weekdayMon z

/-- Ordinal day of the year of `z` (January 1st ↦ 1). -/
def dayOfYear (z : Nat) : Nat := z - daysFromCivil (yearOf z) 1 1 + 1

/-- ISO week-numbering year of `z`: the calendar year of the Thursday of
the ISO week of `z`. -/
def isoWeekYear (z : Nat) : Nat := yearOf (mondayOfWeek z + 3)

/-- ISO 8601 week number of `z` (1–53); embeds `z.iso_week().week()`. -/
def isoWeek (z : Nat) : Nat := (dayOfYear (mondayOfWeek z + 3) - 1) / 7 + 1

/-- Embeds the Rust `Config` struct: start date, ordered caretakers, and
the reschedule `HashMap<String, String>` as an association list with
unique keys. -/
structure Config where
  startdate : Nat
  caretakers : List String
  reschedule : List (String × String)
deriving Repr, DecidableEq

/-- Embeds the Rust `CareWeek` struct. -/
structure CareWeek where
  week : Nat
  caretaker : String
  start_date : Nat
  end_date : Nat
deriving Repr, DecidableEq, Inhabited

/-- Rust `usize` subtraction, which panics on underflow. -/
def checkedSub (a b : Nat) : Option Nat :=
  if a < b then none else some (a - b)

/-- Rust `usize` remainder, which panics when the divisor is zero; the
divisor is tested before any remainder is computed. -/
def checkedMod (a b : Nat) : Option Nat :=
  if b = 0 then none else some (a % b)

/-- Number of elements of `start.iter_weeks()` (the dates
`start, start + 7, start + 14, …`) that are ≤ `now`: the
`take_while(|w| w <= &current_date).count()` of `get_current_caretaker_idx`. -/
def countWeeks (start now : Nat) : Nat :=
  if start ≤ now then (now - start) / 7 + 1 else 0

/-- Embeds `get_current_caretaker_idx` with the wall-clock date passed
explicitly as `now`: `(countWeeks − 1) % caretakers.len()`, with both
partial operations made explicit. -/
def getCurrentCaretakerIdxOpt (conf : Config) (now : Nat) : Option Nat :=
  match checkedSub (countWeeks conf.startdate now) 1 with
  | none => none
  | some diff => checkedMod diff conf.caretakers.length

/-- The reschedule lookup key built by
`format!("{}-{}", d.year_ce().1, week_number)` for the Monday `d`. -/
def rescheduleKey (d : Nat) : String :=
  toString (yearOf d) ++ "-" ++ toString (isoWeek d)

/-- The `CareWeek` built for the `j`-th generated week inside the closure
of `get_next_weeks`: `d` is the Monday `startOfCurrentWeek + 7·j`, the
zipped counter is `idx + j`, and the caretaker is the reschedule override
when the key matches, else `caretakers[(idx + j) % len]`. -/
def careWeekAt (conf : Config) (startOfCurrentWeek idx j : Nat) : CareWeek :=
  let d := startOfCurrentWeek + 7 * j
  let weekNumber := isoWeek d
  let endOfWeek := d + 6
  let caretaker :=
    match List.lookup (rescheduleKey d) conf.reschedule with
    | some rescheduledCaretaker => rescheduledCaretaker
    | none => conf.caretakers.getD ((idx + j) % conf.caretakers.length) ""
  { week := weekNumber, caretaker := caretaker,
    start_date := d, end_date := endOfWeek }

/-- Embeds `get_next_weeks` with the wall-clock date passed explicitly as
`now`: computes the rotation index (propagating its panics as `none`),
takes the Monday of the current week, and zips the week iterator with the
counter range `idx..(idx + weeks)`. -/
def getNextWeeks (conf : Config) (now : Nat) (weeks : Nat) :
    Option (List CareWeek) :=
  (getCurrentCaretakerIdxOpt conf now).map fun caretakerIdx =>
    (List.range weeks).map (careWeekAt conf (mondayOfWeek now) caretakerIdx)

-- sanity checks on the date arithmetic (chrono agreement)
example : daysFromCivil 1970 1 1 = 719468 := by decide
example : weekdayMon (daysFromCivil 2024 1 1) = 0 := by decide
example : weekdayMon (daysFromCivil 1970 1 1) = 3 := by decide
example : yearOf (daysFromCivil 2024 12 30) = 2024 := by decide
example : isoWeek (daysFromCivil 2024 12 30) = 1 := by decide
example : isoWeekYear (daysFromCivil 2024 12 30) = 2025 := by decide
example : isoWeek (daysFromCivil 2021 1 1) = 53 := by decide
example : isoWeek (daysFromCivil 2024 6 5) = 23 := by decide
example : mondayOfWeek (daysFromCivil 2024 6 5) = daysFromCivil 2024 6 3 := by
  decide

theorem length_ne_zero_of_ne_nil {l : List String} (h : l ≠ []) :
    l.length ≠ 0 := by
  simpa [List.length_eq_zero] using h

theorem idxOpt_eq (conf : Config) (now : Nat)
    (hne : conf.caretakers ≠ []) (h : conf.startdate ≤ now) :
    getCurrentCaretakerIdxOpt conf now =
      some (((now - conf.startdate) / 7) % conf.caretakers.length) := by
  have hlen := length_ne_zero_of_ne_nil hne
  unfold getCurrentCaretakerIdxOpt countWeeks checkedSub checkedMod
  rw [if_pos h, if_neg (by omega)]
  simp [hlen]

theorem getNextWeeks_entry {conf : Config} {now k j idx : Nat}
    {ws : List CareWeek}
    (hidx : getCurrentCaretakerIdxOpt conf now = some idx)
    (hws : getNextWeeks conf now k = some ws) (hj : j < k) :
    ws[j]? = some (careWeekAt conf (mondayOfWeek now) idx j) := by
  unfold getNextWeeks at hws
  rw [hidx] at hws
  obtain rfl : (List.range k).map (careWeekAt conf (mondayOfWeek now) idx) = ws :=
    Option.some.inj hws
  simp [List.getElem?_map, List.getElem?_range hj]

/-- C1: for a non-empty caretaker list and `now` on or after the start
date, the base rotation index is `(W − 1) mod N` where `W` counts the
7-day strides from the start date landing on or before `now`, and a
reference date in the week of the start date yields index 0. -/
theorem rotation_index_spec (conf : Config) (now : Nat)
    (hne : conf.caretakers ≠ []) (hstart : conf.startdate ≤ now) :
    ∃ W, (∀ k, conf.startdate + 7 * k ≤ now ↔ k < W) ∧
      getCurrentCaretakerIdxOpt conf now =
        some ((W - 1) % conf.caretakers.length) ∧
      (mondayOfWeek now = mondayOfWeek conf.startdate →
        getCurrentCaretakerIdxOpt conf now = some 0) := by
  refine ⟨(now - conf.startdate) / 7 + 1, ?_, ?_, ?_⟩
  · intro k
    omega
  · rw [idxOpt_eq conf now hne hstart]
    simp
  · intro hmon
    rw [idxOpt_eq conf now hne hstart]
    have h0 : (now - conf.startdate) / 7 = 0 := by
      unfold mondayOfWeek weekdayMon at hmon
      omega
    simp [h0]

def c1Conf : Config :=
  { startdate := daysFromCivil 2024 5 27,
    caretakers := ["Alice", "Bob", "Carol", "Dave"],
    reschedule := [] }

/-- Witness for C1 at the configuration of the repository's own test
(start date 2024-05-27, four caretakers) and reference date 2024-06-05. -/
theorem rotation_index_spec_witness :
    ∃ W, (∀ k, c1Conf.startdate + 7 * k ≤ daysFromCivil 2024 6 5 ↔ k < W) ∧
      getCurrentCaretakerIdxOpt c1Conf (daysFromCivil 2024 6 5) =
        some ((W - 1) % c1Conf.caretakers.length) ∧
      (mondayOfWeek (daysFromCivil 2024 6 5) = mondayOfWeek c1Conf.startdate →
        getCurrentCaretakerIdxOpt c1Conf (daysFromCivil 2024 6 5) = some 0) :=
  rotation_index_spec c1Conf (daysFromCivil 2024 6 5) (by decide) (by decide)

/-- C7: with an empty caretaker list the rotation-index computation
produces no value (the Rust code panics), and the zero divisor is
rejected by the remainder operation before any remainder is computed. -/
theorem empty_caretakers_fail_fast (conf : Config) (now a : Nat)
    (h : conf.caretakers = []) :
    getCurrentCaretakerIdxOpt conf now = none ∧
      checkedMod a conf.caretakers.length = none := by
  have hlen : conf.caretakers.length = 0 := by simp [h]
  refine ⟨?_, by simp [checkedMod, hlen]⟩
  unfold getCurrentCaretakerIdxOpt
  cases checkedSub (countWeeks conf.startdate now) 1 with
  | none => rfl
  | some diff => simp [checkedMod, hlen]

def c7Conf : Config :=
  { startdate := daysFromCivil 2024 5 27, caretakers := [], reschedule := [] }

/-- Witness for C7 at a concrete empty-caretaker configuration. -/
theorem empty_caretakers_fail_fast_witness :
    getCurrentCaretakerIdxOpt c7Conf (daysFromCivil 2024 6 5) = none ∧
      checkedMod 3 c7Conf.caretakers.length = none :=
  empty_caretakers_fail_fast c7Conf (daysFromCivil 2024 6 5) 3 rfl

/-- C10: when the start date is on or before `now` the stride count is at
least 1 and the subtraction of 1 cannot underflow; when `now` is strictly
before the start date the stride count is 0, the subtraction underflows,
and the whole index computation produces no value. -/
theorem stride_count_underflow (conf : Config) (now : Nat) :
    (conf.startdate ≤ now → 1 ≤ countWeeks conf.startdate now ∧
      checkedSub (countWeeks conf.startdate now) 1 =
        some ((now - conf.startdate) / 7)) ∧
    (now < conf.startdate → countWeeks conf.startdate now = 0 ∧
      checkedSub (countWeeks conf.startdate now) 1 = none ∧
      getCurrentCaretakerIdxOpt conf now = none) := by
  constructor
  · intro h
    have hcw : countWeeks conf.startdate now = (now - conf.startdate) / 7 + 1 := by
      unfold countWeeks
      rw [if_pos h]
    rw [hcw]
    constructor
    · omega
    · unfold checkedSub
      rw [if_neg (by omega)]
      simp
  · intro h
    have h0 : countWeeks conf.startdate now = 0 := by
      unfold countWeeks
      rw [if_neg (by omega)]
    refine ⟨h0, ?_, ?_⟩
    · rw [h0]
      rfl
    · unfold getCurrentCaretakerIdxOpt
      rw [h0]
      rfl

/-- Witness for C10 at start date 2024-05-27, with one reference date
after the start date and one strictly before it. -/
theorem stride_count_underflow_witness :
    (1 ≤ countWeeks c1Conf.startdate (daysFromCivil 2024 6 5) ∧
      checkedSub (countWeeks c1Conf.startdate (daysFromCivil 2024 6 5)) 1 =
        some ((daysFromCivil 2024 6 5 - c1Conf.startdate) / 7)) ∧
    (countWeeks c1Conf.startdate (daysFromCivil 2024 5 26) = 0 ∧
      checkedSub (countWeeks c1Conf.startdate (daysFromCivil 2024 5 26)) 1 = none ∧
      getCurrentCaretakerIdxOpt c1Conf (daysFromCivil 2024 5 26) = none) :=
  ⟨(stride_count_underflow c1Conf (daysFromCivil 2024 6 5)).1 (by decide),
   (stride_count_underflow c1Conf (daysFromCivil 2024 5 26)).2 (by decide)⟩

theorem getNextWeeks_idx {conf : Config} {now k : Nat} {ws : List CareWeek}
    (hws : getNextWeeks conf now k = some ws) :
    ∃ idx, getCurrentCaretakerIdxOpt conf now = some idx := by
  unfold getNextWeeks at hws
  cases h : getCurrentCaretakerIdxOpt conf now with
  | none => rw [h] at hws; simp at hws
  | some idx => exact ⟨idx, rfl⟩

theorem getNextWeeks_entry_inv {conf : Config} {now k j : Nat}
    {ws : List CareWeek} {w : CareWeek}
    (hws : getNextWeeks conf now k = some ws) (hj : ws[j]? = some w) :
    ∃ idx, getCurrentCaretakerIdxOpt conf now = some idx ∧ j < k ∧
      w = careWeekAt conf (mondayOfWeek now) idx j := by
  obtain ⟨idx, hidx⟩ := getNextWeeks_idx hws
  have hlen : ws.length = k := by
    unfold getNextWeeks at hws
    rw [hidx] at hws
    obtain rfl := Option.some.inj hws
    simp
  have hjk : j < k := hlen ▸ (List.getElem?_eq_some.mp hj).1
  have := getNextWeeks_entry hidx hws hjk
  rw [hj] at this
  exact ⟨idx, hidx, hjk, Option.some.inj this⟩

theorem careWeekAt_start_date (conf : Config) (m idx j : Nat) :
    (careWeekAt conf m idx j).start_date = m + 7 * j := rfl

theorem careWeekAt_end_date (conf : Config) (m idx j : Nat) :
    (careWeekAt conf m idx j).end_date = m + 7 * j + 6 := rfl

def c2Conf : Config :=
  { startdate := daysFromCivil 2024 1 3, caretakers := ["A", "B"],
    reschedule := [] }

/-- C2 counterexample: with start date Wednesday 2024-01-03 and two
caretakers, reference date 2024-01-08 lies in the ISO week immediately
after the ISO week of reference date 2024-01-03, both are on or after
the start date, yet both yield base rotation index 0 while the claim
demands the second to be (0 + 1) mod 2 = 1. -/
theorem rotation_week_advance_counterexample :
    c2Conf.caretakers ≠ [] ∧
    c2Conf.startdate ≤ daysFromCivil 2024 1 3 ∧
    c2Conf.startdate ≤ daysFromCivil 2024 1 8 ∧
    mondayOfWeek (daysFromCivil 2024 1 8) =
      mondayOfWeek (daysFromCivil 2024 1 3) + 7 ∧
    getCurrentCaretakerIdxOpt c2Conf (daysFromCivil 2024 1 3) = some 0 ∧
    getCurrentCaretakerIdxOpt c2Conf (daysFromCivil 2024 1 8) = some 0 ∧
    (0 + 1) % c2Conf.caretakers.length = 1 := by decide

/-- C2 (amended): when the start date falls on a Monday, the base
rotation index advances by exactly 1 (mod N) between a reference date on
or after the start date and any reference date in the immediately
following ISO week, with no drift across year boundaries. -/
theorem rotation_week_advance (conf : Config) (r1 r2 : Nat)
    (hne : conf.caretakers ≠ []) (hmon : weekdayMon conf.startdate = 0)
    (h1 : conf.startdate ≤ r1)
    (hsucc : mondayOfWeek r2 = mondayOfWeek r1 + 7) :
    ∃ i1 i2, getCurrentCaretakerIdxOpt conf r1 = some i1 ∧
      getCurrentCaretakerIdxOpt conf r2 = some i2 ∧
      i2 = (i1 + 1) % conf.caretakers.length := by
  have h2 : conf.startdate ≤ r2 := by
    unfold mondayOfWeek weekdayMon at hsucc
    unfold weekdayMon at hmon
    omega
  rw [idxOpt_eq conf r1 hne h1, idxOpt_eq conf r2 hne h2]
  refine ⟨_, _, rfl, rfl, ?_⟩
  have key : (r2 - conf.startdate) / 7 = (r1 - conf.startdate) / 7 + 1 := by
    unfold mondayOfWeek weekdayMon at hsucc
    unfold weekdayMon at hmon
    omega
  rw [key, Nat.mod_add_mod]

def c2MonConf : Config :=
  { startdate := daysFromCivil 2024 1 1, caretakers := ["A", "B", "C"],
    reschedule := [] }

/-- Witness for the amended C2 across a year boundary: start date Monday
2024-01-01, reference dates 2024-12-27 (ISO week 52 of 2024) and
2024-12-30 (ISO week 1 of 2025). -/
theorem rotation_week_advance_witness :
    ∃ i1 i2,
      getCurrentCaretakerIdxOpt c2MonConf (daysFromCivil 2024 12 27) = some i1 ∧
      getCurrentCaretakerIdxOpt c2MonConf (daysFromCivil 2024 12 30) = some i2 ∧
      i2 = (i1 + 1) % c2MonConf.caretakers.length :=
  rotation_week_advance c2MonConf (daysFromCivil 2024 12 27)
    (daysFromCivil 2024 12 30) (by decide) (by decide) (by decide) (by decide)

/-- C4: for a non-empty caretaker list and a reference date on or after
the start date, generation succeeds and returns exactly `k` entries, the
empty sequence when `k = 0`. -/
theorem generate_weeks_count (conf : Config) (now k : Nat)
    (hne : conf.caretakers ≠ []) (hstart : conf.startdate ≤ now) :
    ∃ l, getNextWeeks conf now k = some l ∧ l.length = k ∧
      (k = 0 → l = []) := by
  rw [getNextWeeks, idxOpt_eq conf now hne hstart]
  refine ⟨_, rfl, by simp, ?_⟩
  rintro rfl
  simp

/-- Witness for C4: requesting 100 weeks from the test configuration
succeeds with exactly 100 entries. -/
theorem generate_weeks_count_witness :
    ∃ l, getNextWeeks c1Conf (daysFromCivil 2024 6 5) 100 = some l ∧
      l.length = 100 ∧ (100 = 0 → l = []) :=
  generate_weeks_count c1Conf (daysFromCivil 2024 6 5) 100
    (by decide) (by decide)

/-- C5: every generated week's start date is the Monday of the current
ISO week advanced by 7 days per entry; the first entry's start date is
the Monday beginning the ISO week containing `now` (a Monday-weekday
date at most 6 days before `now`), and consecutive entries occupy
immediately successive calendar weeks with no gaps or repeats. -/
theorem first_week_monday (conf : Config) (now k : Nat) (ws : List CareWeek)
    (hws : getNextWeeks conf now k = some ws) (hnow : 6 ≤ now) :
    (∀ j, j < k → ∃ w, ws[j]? = some w ∧
      w.start_date = mondayOfWeek now + 7 * j) ∧
    (0 < k → ∃ w, ws[0]? = some w ∧ weekdayMon w.start_date = 0 ∧
      w.start_date ≤ now ∧ now < w.start_date + 7) ∧
    (∀ j, j + 1 < k → ∃ w w2, ws[j]? = some w ∧ ws[j + 1]? = some w2 ∧
      mondayOfWeek w2.start_date = mondayOfWeek w.start_date + 7) := by
  obtain ⟨idx, hidx⟩ := getNextWeeks_idx hws
  refine ⟨?_, ?_, ?_⟩
  · intro j hj
    exact ⟨_, getNextWeeks_entry hidx hws hj, careWeekAt_start_date _ _ _ _⟩
  · intro hk
    refine ⟨_, getNextWeeks_entry hidx hws hk, ?_, ?_, ?_⟩ <;>
      rw [careWeekAt_start_date] <;>
      unfold mondayOfWeek weekdayMon <;> omega
  · intro j hj
    refine ⟨_, _, getNextWeeks_entry hidx hws (by omega),
      getNextWeeks_entry hidx hws hj, ?_⟩
    rw [careWeekAt_start_date, careWeekAt_start_date]
    unfold mondayOfWeek weekdayMon
    omega

/-- Witness for C5 at the test configuration with reference date
2024-06-05 and three requested weeks. -/
theorem first_week_monday_witness :
    (∀ j, j < 3 → ∃ w,
      ((List.range 3).map (careWeekAt c1Conf
        (mondayOfWeek (daysFromCivil 2024 6 5)) 1))[j]? = some w ∧
      w.start_date = mondayOfWeek (daysFromCivil 2024 6 5) + 7 * j) ∧
    (0 < 3 → ∃ w,
      ((List.range 3).map (careWeekAt c1Conf
        (mondayOfWeek (daysFromCivil 2024 6 5)) 1))[0]? = some w ∧
      weekdayMon w.start_date = 0 ∧
      w.start_date ≤ daysFromCivil 2024 6 5 ∧
      daysFromCivil 2024 6 5 < w.start_date + 7) ∧
    (∀ j, j + 1 < 3 → ∃ w w2,
      ((List.range 3).map (careWeekAt c1Conf
        (mondayOfWeek (daysFromCivil 2024 6 5)) 1))[j]? = some w ∧
      ((List.range 3).map (careWeekAt c1Conf
        (mondayOfWeek (daysFromCivil 2024 6 5)) 1))[j + 1]? = some w2 ∧
      mondayOfWeek w2.start_date = mondayOfWeek w.start_date + 7) :=
  first_week_monday c1Conf (daysFromCivil 2024 6 5) 3
    ((List.range 3).map (careWeekAt c1Conf
      (mondayOfWeek (daysFromCivil 2024 6 5)) 1))
    (by decide) (by decide)

/-- C6: in every successfully generated sequence, each entry's end date
is its start date plus exactly 6 days, and consecutive entries' start
dates differ by exactly 7 days. -/
theorem week_span_invariant (conf : Config) (now k : Nat)
    (ws : List CareWeek) (hws : getNextWeeks conf now k = some ws) :
    (∀ (j : Nat) (w : CareWeek), ws[j]? = some w →
      w.end_date = w.start_date + 6) ∧
    (∀ (j : Nat) (w w2 : CareWeek), ws[j]? = some w → ws[j + 1]? = some w2 →
      w2.start_date = w.start_date + 7) := by
  constructor
  · intro j w hj
    obtain ⟨idx, _, _, rfl⟩ := getNextWeeks_entry_inv hws hj
    rw [careWeekAt_start_date, careWeekAt_end_date]
  · intro j w w2 hj hj2
    obtain ⟨idx, _, _, rfl⟩ := getNextWeeks_entry_inv hws hj
    obtain ⟨idx2, hidx2, _, rfl⟩ := getNextWeeks_entry_inv hws hj2
    rw [careWeekAt_start_date, careWeekAt_start_date]
    ring

/-- Witness for C6 at the test configuration with reference date
2024-06-05 and three requested weeks. -/
theorem week_span_invariant_witness :
    (∀ (j : Nat) (w : CareWeek), ((List.range 3).map (careWeekAt c1Conf
        (mondayOfWeek (daysFromCivil 2024 6 5)) 1))[j]? = some w →
      w.end_date = w.start_date + 6) ∧
    (∀ (j : Nat) (w w2 : CareWeek), ((List.range 3).map (careWeekAt c1Conf
        (mondayOfWeek (daysFromCivil 2024 6 5)) 1))[j]? = some w →
      ((List.range 3).map (careWeekAt c1Conf
        (mondayOfWeek (daysFromCivil 2024 6 5)) 1))[j + 1]? = some w2 →
      w2.start_date = w.start_date + 7) :=
  week_span_invariant c1Conf (daysFromCivil 2024 6 5) 3
    ((List.range 3).map (careWeekAt c1Conf
      (mondayOfWeek (daysFromCivil 2024 6 5)) 1))
    (by decide)

/-- C3: a generated week whose identity matches a reschedule key carries
the override caretaker, and a generated week whose identity matches no
key carries exactly the caretaker it would carry under an empty
reschedule map, so overrides never shift the rotation cursor of other
weeks. -/
theorem reschedule_override (conf : Config) (now k j : Nat) (c : String)
    (ws ws0 : List CareWeek)
    (hws : getNextWeeks conf now k = some ws)
    (hws0 : getNextWeeks { conf with reschedule := [] } now k = some ws0)
    (hj : j < k) :
    (List.lookup (rescheduleKey (mondayOfWeek now + 7 * j)) conf.reschedule
        = some c →
      ∃ w, ws[j]? = some w ∧ w.caretaker = c) ∧
    (List.lookup (rescheduleKey (mondayOfWeek now + 7 * j)) conf.reschedule
        = none →
      ∃ w w0, ws[j]? = some w ∧ ws0[j]? = some w0 ∧
        w.caretaker = w0.caretaker) := by
  obtain ⟨idx, hidx⟩ := getNextWeeks_idx hws
  have hidx0 : getCurrentCaretakerIdxOpt { conf with reschedule := [] } now
      = some idx := hidx
  constructor
  · intro hlk
    refine ⟨_, getNextWeeks_entry hidx hws hj, ?_⟩
    simp [careWeekAt, hlk]
  · intro hlk
    refine ⟨_, _, getNextWeeks_entry hidx hws hj,
      getNextWeeks_entry hidx0 hws0 hj, ?_⟩
    simp [careWeekAt, hlk]

def c3Conf : Config :=
  { startdate := daysFromCivil 2024 1 1, caretakers := ["A", "B", "C"],
    reschedule := [("2024-23", "C")] }

/-- Witness for C3: with start date 2024-01-01, reference date 2024-06-05
(ISO week 23) and an override for key 2024-23, the first of three
generated weeks is resolved through the override branch. -/
theorem reschedule_override_witness :
    (List.lookup (rescheduleKey (mondayOfWeek (daysFromCivil 2024 6 5) + 7 * 0))
        c3Conf.reschedule = some "C" →
      ∃ w, ((List.range 3).map (careWeekAt c3Conf
        (mondayOfWeek (daysFromCivil 2024 6 5)) 1))[0]? = some w ∧
        w.caretaker = "C") ∧
    (List.lookup (rescheduleKey (mondayOfWeek (daysFromCivil 2024 6 5) + 7 * 0))
        c3Conf.reschedule = none →
      ∃ w w0, ((List.range 3).map (careWeekAt c3Conf
        (mondayOfWeek (daysFromCivil 2024 6 5)) 1))[0]? = some w ∧
        ((List.range 3).map (careWeekAt { c3Conf with reschedule := [] }
          (mondayOfWeek (daysFromCivil 2024 6 5)) 1))[0]? = some w0 ∧
        w.caretaker = w0.caretaker) :=
  reschedule_override c3Conf (daysFromCivil 2024 6 5) 3 0 "C"
    ((List.range 3).map (careWeekAt c3Conf
      (mondayOfWeek (daysFromCivil 2024 6 5)) 1))
    ((List.range 3).map (careWeekAt { c3Conf with reschedule := [] }
      (mondayOfWeek (daysFromCivil 2024 6 5)) 1))
    (by decide) (by decide) (by decide)

def decemberMonday : Nat := daysFromCivil 2024 12 30

/-- C9: the reschedule lookup key of a generated week is the string
Y-W where Y is the calendar year and W the ISO week number of the week's
Monday; for the Monday 2024-12-30, which opens ISO week 1 of
week-numbering year 2025, the key is therefore 2024-1, pairing week 1
with the previous calendar year. -/
theorem reschedule_key_calendar_year (conf : Config) (now k j : Nat)
    (c : String) (ws : List CareWeek)
    (hws : getNextWeeks conf now k = some ws) (hj : j < k)
    (hlk : List.lookup (toString (yearOf (mondayOfWeek now + 7 * j)) ++ "-" ++
        toString (isoWeek (mondayOfWeek now + 7 * j))) conf.reschedule
      = some c) :
    (∃ w, ws[j]? = some w ∧ w.caretaker = c) ∧
    yearOf decemberMonday = 2024 ∧ isoWeek decemberMonday = 1 ∧
    isoWeekYear decemberMonday = 2025 ∧
    rescheduleKey decemberMonday = "2024-1" := by
  refine ⟨?_, by decide, by decide, by decide, by decide⟩
  obtain ⟨idx, hidx⟩ := getNextWeeks_idx hws
  have hlk2 : List.lookup (rescheduleKey (mondayOfWeek now + 7 * j))
      conf.reschedule = some c := hlk
  refine ⟨_, getNextWeeks_entry hidx hws hj, ?_⟩
  simp [careWeekAt, hlk2]

def c9Conf : Config :=
  { startdate := daysFromCivil 2024 1 1, caretakers := ["A", "B"],
    reschedule := [("2024-1", "X")] }

/-- Witness for C9: with reference date 2024-12-31 the generated week is
the ISO week of Monday 2024-12-30 and is overridden through the key
2024-1. -/
theorem reschedule_key_calendar_year_witness :
    (∃ w, ((List.range 1).map (careWeekAt c9Conf
        (mondayOfWeek (daysFromCivil 2024 12 31)) 0))[0]? = some w ∧
      w.caretaker = "X") ∧
    yearOf decemberMonday = 2024 ∧ isoWeek decemberMonday = 1 ∧
    isoWeekYear decemberMonday = 2025 ∧
    rescheduleKey decemberMonday = "2024-1" :=
  reschedule_key_calendar_year c9Conf (daysFromCivil 2024 12 31) 1 0 "X"
    ((List.range 1).map (careWeekAt c9Conf
      (mondayOfWeek (daysFromCivil 2024 12 31)) 0))
    (by decide) (by decide) (by decide)

end WhoCares
